import Mathlib

/-!
Shallow embedding of the redux state store of the hathor-wallet repository
(src/src/reducers/index.js) and proofs about its transition function.

JavaScript objects whose field set is fixed by the source are embedded as Lean
structures; fields that the source may leave absent (or set to undefined) are
wrapped in Option, with none standing for undefined/absent - a JS property
read cannot distinguish the two. Plain JS objects used as string-keyed maps
are embedded as association lists (JsMap). Numbers are Int/Nat; arithmetic on
a possibly-undefined operand (which yields NaN in JS) is modelled by jsAddNum
over Option Int, where none stands for undefined/NaN, and the strict equality
test NaN === 0 is false, modelled by jsStrictEqZero none = false.

Handlers that can throw a runtime error (a TypeError from calling a method of
a value that lacks it, or a ReferenceError from an identifier that is not
defined in the module) return Except JsErr State.
-/

set_option linter.unusedVariables false

/-- Runtime errors a reducer dispatch can raise in JS. -/
inductive JsErr where
  /-- Calling a value that is not a function, or a method absent from a value. -/
  | typeError
  /-- Referencing an identifier that is not defined in the module. -/
  | referenceError
  deriving DecidableEq

/-- Association-list embedding of a plain JS object used as a string-keyed map. -/
abbrev JsMap (α : Type) : Type := List (String × α)

/-- Property read: first binding of the key, none when the key is absent. -/
def jsGet {α : Type} : JsMap α → String → Option α
  | [], _ => none
  | (k, v) :: rest, key => if k = key then some v else jsGet rest key

/-- Embedding of a spread-with-computed-key object literal (or an assignment
to one key): overwrites the first binding of the key in place, appending a new
binding at the end when the key is absent - matching JS object key order. -/
def jsSet {α : Type} : JsMap α → String → α → JsMap α
  | [], key, v => [(key, v)]
  | (k, w) :: rest, key, v =>
      if k = key then (key, v) :: rest else (k, w) :: jsSet rest key v

/-- Embedding of the delete operator on an object key. -/
def jsErase {α : Type} (m : JsMap α) (key : String) : JsMap α :=
  m.filter (fun kv => kv.1 ≠ key)

/-- Embedding of Object.assign({}, a, b) (equivalently {...a, ...b}): keys of
a keep their order with values overridden by b; keys only in b are appended
in the order of b. -/
def jsMerge {α : Type} (a b : JsMap α) : JsMap α :=
  a.map (fun kv => (kv.1, (jsGet b kv.1).getD kv.2)) ++
    b.filter (fun kv => (jsGet a kv.1).isNone)

/-- Addition where an operand may be undefined: undefined + n is NaN in JS,
and NaN propagates; none stands for undefined/NaN. -/
def jsAddNum : Option Int → Option Int → Option Int
  | some a, some b => some (a + b)
  | _, _ => none

/-- Strict comparison of a possibly-NaN number with 0: NaN === 0 is false. -/
def jsStrictEqZero : Option Int → Bool
  | some n => n == 0
  | none => false

/-- Download statuses. Modelled from the spec: the constant objects
TOKEN_DOWNLOAD_STATUS (sagas/tokens) and PROPOSAL_DOWNLOAD_STATUS
(utils/atomicSwap) and WALLET_STATUS (sagas/wallet) are not under src/; the
spec gives the status set {LOADING, READY, FAILED, INVALIDATED}, which all
three share. -/
inductive DStatus where
  | loading
  | ready
  | failed
  | invalidated
  deriving DecidableEq

/-- Constant NATIVE_TOKEN_UID imported from the wallet library (not under
src/); its value is the uid of the native token, shown as 00 in the source
comments (for example the allTokens example { 00: "00" }). -/
def NATIVE_TOKEN_UID : String := "00"

/-- Registered token record {uid, name, symbol}. -/
structure Token where
  uid : String
  name : String
  symbol : String
  deriving DecidableEq

/-- Payload of set_native_token_data: {symbol, name, uid}. -/
structure TokenData where
  symbol : String
  name : String
  uid : String
  deriving DecidableEq

/-- Balance figures {available, locked} as delivered by a balance fetch. -/
structure BalanceData where
  available : Int
  locked : Int
  deriving DecidableEq

/-- Entry of a token history sequence, as built by getTxHistoryFromWSTx. -/
structure TxHistory where
  tx_id : String
  timestamp : Nat
  tokenUid : String
  balance : Int
  is_voided : Bool
  version : Nat
  isAllAuthority : Bool
  deriving DecidableEq

/-- Websocket transaction payload. The field isAllAuthority carries the
result of helpersUtils.isAllAuthority(tx); that helper lives in
utils/helpers, outside src/, so its result is taken as given input data -
no claim depends on its computation. -/
structure Tx where
  tx_id : String
  timestamp : Nat
  is_voided : Bool
  version : Nat
  isAllAuthority : Bool
  deriving DecidableEq

/-- Value stored under a key of state.tokensBalance. The source stores two
shapes there: TokenBalance records {status, oldStatus, updatedAt, data}
written by the fetch handlers, and plain {available, locked} objects (the
default of resetSelectedTokenIfNeeded). Both are embedded as one record of
optional fields, matching property reads on either shape. -/
structure BalRec where
  status : Option DStatus := none
  oldStatus : Option DStatus := none
  updatedAt : Option Nat := none
  data : Option BalanceData := none
  available : Option Int := none
  locked : Option Int := none
  deriving DecidableEq

/-- TokenHistory record shape {status, oldStatus, updatedAt, data}. -/
structure HistRec where
  status : Option DStatus := none
  oldStatus : Option DStatus := none
  updatedAt : Option Nat := none
  data : Option (List TxHistory) := none
  deriving DecidableEq

/-- Value stored under a key of state.tokensHistory. The source stores two
shapes: TokenHistory records (fetch handlers, see the typedef at the top of
the source file) and plain arrays of history entries (onUpdateTx). -/
inductive HistVal where
  /-- Plain array of history entries, as written by onUpdateTx. -/
  | arr (elems : List TxHistory)
  /-- TokenHistory record, as written by the fetch handlers. -/
  | obj (r : HistRec)
  deriving DecidableEq

/-- Proposal record; fields are optional because the handlers write records
with differing field sets. -/
structure Proposal where
  id : Option String := none
  password : Option String := none
  status : Option DStatus := none
  oldStatus : Option DStatus := none
  updatedAt : Option Nat := none
  data : Option String := none
  errorMessage : Option String := none
  deriving DecidableEq

/-- Entry of state.tokensCache. onProposalTokenFetchFailed writes the key id
while the other handlers write tokenUid, hence both fields. -/
structure CacheEntry where
  tokenUid : Option String := none
  id : Option String := none
  symbol : Option String := none
  name : Option String := none
  status : Option DStatus := none
  oldStatus : Option DStatus := none
  errorMessage : Option String := none
  deriving DecidableEq

/-- Record loadedData = {transactions, addresses}. -/
structure LoadedData where
  transactions : Nat
  addresses : Nat
  deriving DecidableEq

/-- Record serverInfo = {network, version}. -/
structure ServerInfo where
  network : Option String
  version : Option String
  deriving DecidableEq

/-- Record navigateTo = {route, replace}. -/
structure NavigateTo where
  route : String
  replace : Bool
  deriving DecidableEq

/-- Start-wallet action retained for retry ({words, pin} and the rest of the
payload are opaque to the reducer). -/
structure StartAction where
  words : String
  pin : String
  deriving DecidableEq

/-- Aggregate redux state, one field per field of the initialState object of
the source, plus the fields that handlers add to the object later
(addressesFound, transactionsFound from history_update and walletStartState
from the start-wallet handlers); for those, none stands for the field being
absent. Opaque payloads (lastFailedRequest, walletState, token metadata,
proposal data, mining server) are embedded as strings. The lockWalletPromise
slot holds a resolver function in JS; it is embedded as an opaque resolver
identifier. -/
structure State where
  tokensHistory : JsMap HistVal
  tokensBalance : JsMap BalRec
  lastSharedAddress : Option String
  lastSharedIndex : Option Nat
  isVersionAllowed : Option Bool
  isOnline : Bool
  network : Option String
  lastFailedRequest : Option String
  requestErrorStatusCode : Option Nat
  tokens : List Token
  selectedToken : String
  allTokens : JsMap String
  loadingAddresses : Bool
  loadedData : LoadedData
  height : Int
  walletState : Option String
  tokenMetadata : JsMap String
  tokenMetadataErrors : List String
  metadataLoaded : Bool
  useWalletService : Bool
  lockWalletPromise : Option Nat
  ledgerWasClosed : Bool
  serverInfo : ServerInfo
  startWalletAction : Option StartAction
  navigateTo : NavigateTo
  useAtomicSwap : Bool
  proposals : JsMap Proposal
  tokensCache : JsMap CacheEntry
  featureTogglesInitialized : Bool
  featureToggles : JsMap Bool
  miningServer : Option String
  nativeTokenData : Option TokenData
  addressesFound : Option Nat
  transactionsFound : Option Nat
  walletStartState : Option DStatus
  deriving DecidableEq

/-- Constant FEATURE_TOGGLE_DEFAULTS imported from ../constants (not under
src/). Modelled from the spec: feature-flag delivery is out of scope; the
concrete default map does not affect any claim, so it is taken as empty. -/
def FEATURE_TOGGLE_DEFAULTS : JsMap Bool := []

/-- Embedding of the initialState object of the source. -/
def initialState : State where
  tokensHistory := []
  tokensBalance := []
  lastSharedAddress := none
  lastSharedIndex := none
  isVersionAllowed := none
  isOnline := false
  network := none
  lastFailedRequest := none
  requestErrorStatusCode := none
  tokens := []
  selectedToken := NATIVE_TOKEN_UID
  allTokens := []
  loadingAddresses := false
  loadedData := { transactions := 0, addresses := 0 }
  height := 0
  walletState := none
  tokenMetadata := []
  tokenMetadataErrors := []
  metadataLoaded := false
  useWalletService := false
  lockWalletPromise := none
  ledgerWasClosed := false
  serverInfo := { network := none, version := none }
  startWalletAction := none
  navigateTo := { route := "", replace := false }
  useAtomicSwap := false
  proposals := []
  tokensCache := []
  featureTogglesInitialized := false
  featureToggles := FEATURE_TOGGLE_DEFAULTS
  miningServer := none
  nativeTokenData := none
  addressesFound := none
  transactionsFound := none
  walletStartState := none

/-- Record of the external effect of onResolveLockWalletPromise: the stored
resolver was invoked with the action payload. -/
structure ResolverCall where
  resolver : Nat
  arg : String
  deriving DecidableEq

/-- Embedding of getTxHistoryFromWSTx. -/
def getTxHistoryFromWSTx (tx : Tx) (tokenUid : String) (tokenTxBalance : Int) :
    TxHistory where
  tx_id := tx.tx_id
  timestamp := tx.timestamp
  tokenUid := tokenUid
  balance := tokenTxBalance
  is_voided := tx.is_voided
  version := tx.version
  isAllAuthority := tx.isAllAuthority

/-- Embedding of Array.prototype.findIndex over a history sequence with the
predicate el.tx_id === txId, as an index option (none for a JS result of -1). -/
def findTxIndex (txId : String) : List TxHistory → Option Nat
  | [] => none
  | e :: rest =>
      if e.tx_id = txId then some 0 else (findTxIndex txId rest).map (· + 1)

/-- Write newHistory[txIndex] = entry of onUpdateTx. When findIndex missed,
txIndex is -1 and the JS assignment creates a non-index own property -1 on
the array, which leaves the indexed elements, the length, iteration and
spreads unchanged; no reader in the module observes non-index properties, so
the miss case is embedded as returning the sequence unchanged. -/
def jsArrayWriteAtFound (l : List TxHistory) (txIndex : Option Nat)
    (entry : TxHistory) : List TxHistory :=
  match txIndex with
  | some i => l.set i entry
  | none => l

/-- Loop body of onUpdateTx over Object.entries(balances): builds
updatedHistoryMap, raising a TypeError when a history entry is a TokenHistory
record object (calling findIndex on it, a method plain objects lack). -/
def updateTxHistoryMap (tokensHistory : JsMap HistVal) (tx : Tx) :
    JsMap Int → Except JsErr (JsMap HistVal)
  | [] => .ok []
  | (tokenUid, tokenTxBalance) :: rest => do
      let currentHistory ←
        match jsGet tokensHistory tokenUid with
        | none => Except.ok ([] : List TxHistory)
        | some (.arr l) => Except.ok l
        | some (.obj _) => Except.error JsErr.typeError
      let txIndex := findTxIndex tx.tx_id currentHistory
      let newHistory :=
        jsArrayWriteAtFound currentHistory txIndex
          (getTxHistoryFromWSTx tx tokenUid tokenTxBalance)
      let restMap ← updateTxHistoryMap tokensHistory tx rest
      pure (jsSet restMap tokenUid (.arr newHistory))

/-- Embedding of onUpdateTx. -/
def onUpdateTx (state : State) (tx : Tx) (updatedBalanceMap : JsMap BalRec)
    (balances : JsMap Int) : Except JsErr State := do
  let updatedHistoryMap ← updateTxHistoryMap state.tokensHistory tx balances
  let newTokensHistory := jsMerge state.tokensHistory updatedHistoryMap
  let newTokensBalance := jsMerge state.tokensBalance updatedBalanceMap
  pure { state with
    tokensHistory := newTokensHistory
    tokensBalance := newTokensBalance }

/-- Embedding of onCleanData: Object.assign({}, initialState, the four
retained fields of the current state). -/
def onCleanData (state : State) : State :=
  { initialState with
    isVersionAllowed := state.isVersionAllowed
    loadingAddresses := state.loadingAddresses
    ledgerWasClosed := state.ledgerWasClosed
    featureTogglesInitialized := state.featureTogglesInitialized }

/-- Record shape seen through property reads when a tokensHistory value is
spread into an object literal: a TokenHistory record contributes its fields;
an array contributes only index properties (invisible to every reader of
status/oldStatus/updatedAt/data in the module, hence dropped); an absent
value contributes nothing. -/
def histRecOf : Option HistVal → HistRec
  | some (.obj r) => r
  | some (.arr _) => {}
  | none => {}

/-- Status read on a tokensHistory value (undefined on arrays and absence). -/
def histStatus (v : Option HistVal) : Option DStatus := (histRecOf v).status

/-- Embedding of onUpdateTokenHistory (pagination append). The lodash get of
the path token.data yields the data array of a record entry and undefined
(defaulted to []) otherwise. -/
def onUpdateTokenHistory (state : State) (token : String)
    (newHistory : List TxHistory) : State :=
  let oldRec := histRecOf (jsGet state.tokensHistory token)
  let oldData := oldRec.data.getD []
  { state with
    tokensHistory := jsSet state.tokensHistory token
      (.obj { oldRec with data := some (oldData ++ newHistory) }) }

/-- Embedding of onUpdateHeight: strict inequality guard on the height. -/
def onUpdateHeight (state : State) (height : Int) (htrUpdatedBalance : BalRec) :
    State :=
  if height ≠ state.height then
    { state with
      tokensBalance :=
        jsMerge state.tokensBalance [(NATIVE_TOKEN_UID, htrUpdatedBalance)]
      height := height }
  else
    state

/-- Embedding of tokenMetadataUpdated. -/
def tokenMetadataUpdated (state : State) (data : JsMap String)
    (errors : List String) : State :=
  { state with
    metadataLoaded := true
    tokenMetadata := jsMerge state.tokenMetadata data
    tokenMetadataErrors := state.tokenMetadataErrors ++ errors }

/-- Embedding of removeTokenMetadata. The source computes a candidate
newBalance map but returns only the new tokenMetadata, so the returned state
keeps the original tokensBalance. Inside the dead computation, the guard
reads balance.unlocked, a field the balance data record does not have, so the
sum is undefined + locked = NaN and the strict comparison with 0 is false. -/
def removeTokenMetadata (state : State) (uid : String) : State :=
  let newMeta := jsErase state.tokenMetadata uid
  let newBalance :=
    match jsGet state.tokensBalance uid with
    | some r =>
        match r.data with
        | some balance =>
            if jsStrictEqZero (jsAddNum none (some balance.locked)) then
              jsErase state.tokensBalance uid
            else
              state.tokensBalance
        | none => state.tokensBalance
    | none => state.tokensBalance
  { state with tokenMetadata := newMeta }

/-- Embedding of partiallyUpdateHistoryAndBalance. -/
def partiallyUpdateHistoryAndBalance (state : State)
    (tokensHistory : JsMap HistVal) (tokensBalance : JsMap BalRec) : State :=
  { state with
    tokensHistory := jsMerge state.tokensHistory tokensHistory
    tokensBalance := jsMerge state.tokensBalance tokensBalance }

/-- Embedding of onSetUseWalletService. -/
def onSetUseWalletService (state : State) (useWalletService : Bool) : State :=
  { state with useWalletService := useWalletService }

/-- Embedding of onLockWalletForResult: arms the PinGate slot with the
resolver carried by the action payload. -/
def onLockWalletForResult (state : State) (resolver : Nat) : State :=
  { state with lockWalletPromise := some resolver }

/-- Embedding of onResolveLockWalletPromise. The source calls
state.lockWalletPromise(action.payload); when the slot is null this throws a
TypeError (calling a non-function), otherwise the stored resolver is invoked
with the payload (recorded as a ResolverCall, an effect outside the state)
and the slot is cleared. -/
def onResolveLockWalletPromise (state : State) (payload : String) :
    Except JsErr (State × ResolverCall) :=
  match state.lockWalletPromise with
  | none => .error .typeError
  | some r =>
      .ok ({ state with lockWalletPromise := none }, { resolver := r, arg := payload })

/-- Embedding of resetSelectedTokenIfNeeded. The looked-up balance entry is
read at its top-level available and locked properties (the TokenBalance
records written by the fetch handlers keep these under data, so on such
records both reads yield undefined and the zero test is false). -/
def resetSelectedTokenIfNeeded (state : State) : State :=
  let balance := (jsGet state.tokensBalance state.selectedToken).getD
    { available := some 0, locked := some 0 }
  let hasZeroBalance := jsStrictEqZero (jsAddNum balance.available balance.locked)
  if hasZeroBalance then
    { state with selectedToken := NATIVE_TOKEN_UID }
  else
    state

/-- Embedding of onNewTokens. -/
def onNewTokens (state : State) (uid : String) (tokens : List Token) : State :=
  let allTokens := jsSet state.allTokens uid uid
  { state with
    selectedToken := uid
    tokens := tokens
    allTokens := allTokens }

/-- Embedding of onLoadWalletSuccess. The LOCAL_STORE.setWalletVersion call
is an effect on persistent storage outside the state, not embedded. -/
def onLoadWalletSuccess (state : State) (tokens : JsMap String)
    (registeredTokens : List Token) (currentAddress : String × Nat) : State :=
  { state with
    loadingAddresses := false
    lastSharedAddress := some currentAddress.1
    lastSharedIndex := some currentAddress.2
    allTokens := tokens
    tokens := registeredTokens }

/-- Embedding of onUpdateLoadedData. -/
def onUpdateLoadedData (state : State) (payload : LoadedData) : State :=
  { state with loadedData := payload }

/-- Record shape seen through property reads on a tokensBalance value, with
{} as the lodash get default for an absent key. -/
def balRecOf (v : Option BalRec) : BalRec := v.getD {}

/-- Status read on a tokensBalance value (undefined on absence). -/
def balStatus (v : Option BalRec) : Option DStatus := (balRecOf v).status

/-- Embedding of onTokenFetchBalanceRequested. -/
def onTokenFetchBalanceRequested (state : State) (tokenId : String) : State :=
  let oldState := balRecOf (jsGet state.tokensBalance tokenId)
  { state with
    tokensBalance := jsSet state.tokensBalance tokenId
      { oldState with
        status := some .loading
        oldStatus := oldState.status } }

/-- Embedding of onTokenFetchBalanceSuccess; now stands for the value of
new Date().getTime() at the dispatch. -/
def onTokenFetchBalanceSuccess (state : State) (tokenId : String)
    (data : BalanceData) (now : Nat) : State :=
  let oldState := balRecOf (jsGet state.tokensBalance tokenId)
  { state with
    tokensBalance := jsSet state.tokensBalance tokenId
      { status := some .ready
        updatedAt := some now
        data := some data
        oldStatus := oldState.status } }

/-- Embedding of onTokenFetchBalanceFailed. -/
def onTokenFetchBalanceFailed (state : State) (tokenId : String) : State :=
  let oldState := balRecOf (jsGet state.tokensBalance tokenId)
  { state with
    tokensBalance := jsSet state.tokensBalance tokenId
      { status := some .failed
        oldStatus := oldState.status } }

/-- Embedding of onTokenFetchHistorySuccess. -/
def onTokenFetchHistorySuccess (state : State) (tokenId : String)
    (data : List TxHistory) (now : Nat) : State :=
  let oldState := histRecOf (jsGet state.tokensHistory tokenId)
  { state with
    tokensHistory := jsSet state.tokensHistory tokenId
      (.obj { status := some .ready
              updatedAt := some now
              data := some data
              oldStatus := oldState.status }) }

/-- Embedding of onTokenFetchHistoryFailed. -/
def onTokenFetchHistoryFailed (state : State) (tokenId : String) : State :=
  let oldState := histRecOf (jsGet state.tokensHistory tokenId)
  { state with
    tokensHistory := jsSet state.tokensHistory tokenId
      (.obj { status := some .failed
              data := some []
              oldStatus := oldState.status }) }

/-- Embedding of onTokenFetchHistoryRequested. -/
def onTokenFetchHistoryRequested (state : State) (tokenId : String) : State :=
  let oldState := histRecOf (jsGet state.tokensHistory tokenId)
  { state with
    tokensHistory := jsSet state.tokensHistory tokenId
      (.obj { oldState with
              status := some .loading
              oldStatus := oldState.status }) }

/-- Embedding of onSetUseAtomicSwap. -/
def onSetUseAtomicSwap (state : State) (useAtomicSwap : Bool) : State :=
  { state with useAtomicSwap := useAtomicSwap }

/-- Embedding of onProposalListUpdated. -/
def onProposalListUpdated (state : State)
    (listenedProposalsMap : JsMap Proposal) : State :=
  { state with proposals := listenedProposalsMap }

/-- Default proposal record { id: proposalId } used by the lodash get calls. -/
def defaultProposal (proposalId : String) : Proposal := { id := some proposalId }

/-- Status read on a proposals value with the { id } default. -/
def propStatus (v : Option Proposal) (proposalId : String) : Option DStatus :=
  (v.getD (defaultProposal proposalId)).status

/-- Embedding of onProposalFetchRequested. -/
def onProposalFetchRequested (state : State) (proposalId : String) : State :=
  let oldState := (jsGet state.proposals proposalId).getD (defaultProposal proposalId)
  { state with
    proposals := jsSet state.proposals proposalId
      { oldState with
        status := some .loading
        oldStatus := oldState.status } }

/-- Embedding of onProposalFetchSuccess. The object literal spreads the old
record and overrides status, updatedAt and data; oldStatus is whatever the
old record carried, not the status it held before this transition. -/
def onProposalFetchSuccess (state : State) (proposalId : String)
    (data : String) (now : Nat) : State :=
  let oldState := (jsGet state.proposals proposalId).getD (defaultProposal proposalId)
  { state with
    proposals := jsSet state.proposals proposalId
      { oldState with
        status := some .ready
        updatedAt := some now
        data := some data } }

/-- Embedding of onProposalFetchFailed: a fresh record keeping only the
password of the old one. -/
def onProposalFetchFailed (state : State) (proposalId : String)
    (errorMessage : String) (now : Nat) : State :=
  let password := ((jsGet state.proposals proposalId).getD
    (defaultProposal proposalId)).password
  { state with
    proposals := jsSet state.proposals proposalId
      { id := some proposalId
        password := password
        status := some .failed
        errorMessage := some errorMessage
        updatedAt := some now } }

/-- Embedding of onProposalUpdate. -/
def onProposalUpdate (state : State) (proposalId : String) (data : String)
    (now : Nat) : State :=
  let oldState := (jsGet state.proposals proposalId).getD (defaultProposal proposalId)
  { state with
    proposals := jsSet state.proposals proposalId
      { oldState with
        updatedAt := some now
        data := some data } }

/-- Default tokensCache record used by onProposalTokenFetchRequested when the
key is absent; note its status defaults to LOADING. -/
def defaultCacheEntry (tokenUid : String) : CacheEntry where
  tokenUid := some tokenUid
  symbol := some ""
  name := some ""
  status := some .loading

/-- Embedding of onProposalTokenFetchRequested. -/
def onProposalTokenFetchRequested (state : State) (tokenUid : String) : State :=
  let oldState := (jsGet state.tokensCache tokenUid).getD (defaultCacheEntry tokenUid)
  { state with
    tokensCache := jsSet state.tokensCache tokenUid
      { oldState with
        status := some .loading
        oldStatus := oldState.status } }

/-- Embedding of onProposalTokenFetchSuccess: a fresh record without
oldStatus. -/
def onProposalTokenFetchSuccess (state : State) (tokenUid : String)
    (symbol : String) (name : String) : State :=
  { state with
    tokensCache := jsSet state.tokensCache tokenUid
      { tokenUid := some tokenUid
        symbol := some symbol
        name := some name
        status := some .ready } }

/-- Embedding of onProposalTokenFetchFailed: a fresh record keyed by id,
without oldStatus. -/
def onProposalTokenFetchFailed (state : State) (tokenUid : String)
    (errorMessage : String) : State :=
  { state with
    tokensCache := jsSet state.tokensCache tokenUid
      { id := some tokenUid
        symbol := some ""
        name := some ""
        status := some .failed
        errorMessage := some errorMessage } }

/-- Embedding of onProposalImported. -/
def onProposalImported (state : State) (proposalId : String)
    (password : String) : State :=
  { state with
    proposals := jsSet state.proposals proposalId
      { id := some proposalId
        password := some password
        status := some .invalidated } }

/-- Embedding of onProposalRemoved. -/
def onProposalRemoved (state : State) (proposalId : String) : State :=
  { state with proposals := jsErase state.proposals proposalId }

/-- Embedding of onStartWalletLock. -/
def onStartWalletLock (state : State) : State :=
  { state with walletStartState := some .loading }

/-- Embedding of onStartWalletRequested. -/
def onStartWalletRequested (state : State) (action : StartAction) : State :=
  { state with
    walletStartState := some .loading
    startWalletAction := some action }

/-- Embedding of onStartWalletSuccess: the stored start action (which holds
private data) is cleared. -/
def onStartWalletSuccess (state : State) : State :=
  { state with
    walletStartState := some .ready
    startWalletAction := none }

/-- Embedding of onStartWalletFailed. -/
def onStartWalletFailed (state : State) : State :=
  { state with walletStartState := some .failed }

/-- Embedding of onTokenInvalidateBalance: a fresh record holding only the
INVALIDATED status. -/
def onTokenInvalidateBalance (state : State) (tokenId : String) : State :=
  { state with
    tokensBalance := jsSet state.tokensBalance tokenId
      { status := some .invalidated } }

/-- Embedding of onTokenInvalidateHistory: a fresh record holding only the
INVALIDATED status. -/
def onTokenInvalidateHistory (state : State) (tokenId : String) : State :=
  { state with
    tokensHistory := jsSet state.tokensHistory tokenId
      (.obj { status := some .invalidated }) }

/-- Embedding of onWalletBestBlockUpdate. -/
def onWalletBestBlockUpdate (state : State) (data : Int) : State :=
  { state with height := data }

/-- Embedding of onSetNavigateTo. -/
def onSetNavigateTo (state : State) (route : String) (replace : Bool) : State :=
  { state with navigateTo := { route := route, replace := replace } }

/-- Embedding of onSetServerInfo. -/
def onSetServerInfo (state : State) (network : String) (version : String) :
    State :=
  { state with
    serverInfo := { network := some network, version := some version } }

/-- Embedding of onFeatureToggleInitialized. -/
def onFeatureToggleInitialized (state : State) : State :=
  { state with featureTogglesInitialized := true }

/-- Embedding of onSetFeatureToggles. -/
def onSetFeatureToggles (state : State) (payload : JsMap Bool) : State :=
  { state with featureToggles := payload }

/-- Embedding of onUpdateTxHistory. The falsy guard returns the state when
the tokensHistory key is absent. The spread [...tokenHistory.data] throws a
TypeError when the entry has no data array (an array entry has no data
property, and an INVALIDATED or freshly LOADING record lacks data); the
spread of undefined as an iterable is a TypeError. The loop rewrites the
element at the first index whose tx_id matches and then breaks. -/
def onUpdateTxHistory (state : State) (tx : Tx) (tokenId : String)
    (balance : Int) : Except JsErr State :=
  match jsGet state.tokensHistory tokenId with
  | none => .ok state
  | some (.arr _) => .error .typeError
  | some (.obj tokenHistory) =>
      match tokenHistory.data with
      | none => .error .typeError
      | some data =>
          let newTokenHistoryData :=
            match findTxIndex tx.tx_id data with
            | some i => data.set i (getTxHistoryFromWSTx tx tokenId balance)
            | none => data
          .ok { state with
            tokensHistory := jsSet state.tokensHistory tokenId
              (.obj { tokenHistory with data := some newTokenHistoryData }) }

/-- Embedding of onWalletStateChanged. -/
def onWalletStateChanged (state : State) (payload : String) : State :=
  { state with walletState := some payload }

/-- Embedding of onSetMiningServer. -/
def onSetMiningServer (state : State) (payload : String) : State :=
  { state with miningServer := some payload }

/-- Embedding of Array.prototype.findIndex over the registered token list
with the predicate e.uid === NATIVE_TOKEN_UID. -/
def findNativeTokenIndex : List Token → Option Nat
  | [] => none
  | e :: rest =>
      if e.uid = NATIVE_TOKEN_UID then some 0
      else (findNativeTokenIndex rest).map (· + 1)

/-- Embedding of onSetNativeTokenData. -/
def onSetNativeTokenData (state : State) (payload : TokenData) : State :=
  let nativeEntry : Token :=
    { symbol := payload.symbol, name := payload.name, uid := NATIVE_TOKEN_UID }
  let tokens :=
    match findNativeTokenIndex state.tokens with
    | none => nativeEntry :: state.tokens
    | some i => state.tokens.set i nativeEntry
  { state with
    nativeTokenData := some payload
    tokens := tokens
    tokensCache := jsSet state.tokensCache NATIVE_TOKEN_UID
      { tokenUid := some NATIVE_TOKEN_UID
        symbol := some payload.symbol
        name := some payload.name
        status := some .ready } }

/-- Payload of reload_data: Object.assign({}, state, action.payload) merges
an arbitrary subset of top-level fields wholesale, embedded as one optional
override per state field (some overrides, none leaves the field alone). -/
structure StatePatch where
  tokensHistory : Option (JsMap HistVal) := none
  tokensBalance : Option (JsMap BalRec) := none
  lastSharedAddress : Option (Option String) := none
  lastSharedIndex : Option (Option Nat) := none
  isVersionAllowed : Option (Option Bool) := none
  isOnline : Option Bool := none
  network : Option (Option String) := none
  lastFailedRequest : Option (Option String) := none
  requestErrorStatusCode : Option (Option Nat) := none
  tokens : Option (List Token) := none
  selectedToken : Option String := none
  allTokens : Option (JsMap String) := none
  loadingAddresses : Option Bool := none
  loadedData : Option LoadedData := none
  height : Option Int := none
  walletState : Option (Option String) := none
  tokenMetadata : Option (JsMap String) := none
  tokenMetadataErrors : Option (List String) := none
  metadataLoaded : Option Bool := none
  useWalletService : Option Bool := none
  lockWalletPromise : Option (Option Nat) := none
  ledgerWasClosed : Option Bool := none
  serverInfo : Option ServerInfo := none
  startWalletAction : Option (Option StartAction) := none
  navigateTo : Option NavigateTo := none
  useAtomicSwap : Option Bool := none
  proposals : Option (JsMap Proposal) := none
  tokensCache : Option (JsMap CacheEntry) := none
  featureTogglesInitialized : Option Bool := none
  featureToggles : Option (JsMap Bool) := none
  miningServer : Option (Option String) := none
  nativeTokenData : Option (Option TokenData) := none
  addressesFound : Option (Option Nat) := none
  transactionsFound : Option (Option Nat) := none
  walletStartState : Option (Option DStatus) := none
  deriving DecidableEq

/-- Merge of a StatePatch into a state, field by field. -/
def applyPatch (s : State) (p : StatePatch) : State where
  tokensHistory := p.tokensHistory.getD s.tokensHistory
  tokensBalance := p.tokensBalance.getD s.tokensBalance
  lastSharedAddress := p.lastSharedAddress.getD s.lastSharedAddress
  lastSharedIndex := p.lastSharedIndex.getD s.lastSharedIndex
  isVersionAllowed := p.isVersionAllowed.getD s.isVersionAllowed
  isOnline := p.isOnline.getD s.isOnline
  network := p.network.getD s.network
  lastFailedRequest := p.lastFailedRequest.getD s.lastFailedRequest
  requestErrorStatusCode := p.requestErrorStatusCode.getD s.requestErrorStatusCode
  tokens := p.tokens.getD s.tokens
  selectedToken := p.selectedToken.getD s.selectedToken
  allTokens := p.allTokens.getD s.allTokens
  loadingAddresses := p.loadingAddresses.getD s.loadingAddresses
  loadedData := p.loadedData.getD s.loadedData
  height := p.height.getD s.height
  walletState := p.walletState.getD s.walletState
  tokenMetadata := p.tokenMetadata.getD s.tokenMetadata
  tokenMetadataErrors := p.tokenMetadataErrors.getD s.tokenMetadataErrors
  metadataLoaded := p.metadataLoaded.getD s.metadataLoaded
  useWalletService := p.useWalletService.getD s.useWalletService
  lockWalletPromise := p.lockWalletPromise.getD s.lockWalletPromise
  ledgerWasClosed := p.ledgerWasClosed.getD s.ledgerWasClosed
  serverInfo := p.serverInfo.getD s.serverInfo
  startWalletAction := p.startWalletAction.getD s.startWalletAction
  navigateTo := p.navigateTo.getD s.navigateTo
  useAtomicSwap := p.useAtomicSwap.getD s.useAtomicSwap
  proposals := p.proposals.getD s.proposals
  tokensCache := p.tokensCache.getD s.tokensCache
  featureTogglesInitialized := p.featureTogglesInitialized.getD s.featureTogglesInitialized
  featureToggles := p.featureToggles.getD s.featureToggles
  miningServer := p.miningServer.getD s.miningServer
  nativeTokenData := p.nativeTokenData.getD s.nativeTokenData
  addressesFound := p.addressesFound.getD s.addressesFound
  transactionsFound := p.transactionsFound.getD s.transactionsFound
  walletStartState := p.walletStartState.getD s.walletStartState

/-- Transition alphabet of the store: one constructor per case of the switch
of rootReducer, with the payload fields that case reads, plus unknown for
every identifier that matches no case (the default branch). -/
inductive RAction where
  | history_update (allTokens : JsMap String) (lastSharedIndex : Option Nat)
      (lastSharedAddress : Option String) (addressesFound : Nat)
      (transactionsFound : Nat)
  | shared_address (lastSharedAddress : Option String) (lastSharedIndex : Option Nat)
  | is_version_allowed_update (allowed : Bool)
  | is_online_update (isOnline : Bool)
  | network_update (network : String)
  | reload_data (payload : StatePatch)
  | clean_data
  | last_failed_request (payload : String)
  | select_token (payload : String)
  | new_tokens (uid : String) (tokens : List Token)
  | loading_addresses_update (payload : Bool)
  | update_loaded_data (payload : LoadedData)
  | update_request_error_status_code (payload : Nat)
  | update_height (height : Int) (htrUpdatedBalance : BalRec)
  | load_wallet_success (tokens : JsMap String) (registeredTokens : List Token)
      (currentAddress : String × Nat)
  | update_tx (tx : Tx) (updatedBalanceMap : JsMap BalRec) (balances : JsMap Int)
  | update_token_history (token : String) (newHistory : List TxHistory)
  | token_metadata_updated (data : JsMap String) (errors : List String)
  | metadata_loaded (payload : Bool)
  | remove_token_metadata (uid : String)
  | partially_update_history_and_balance (tokensHistory : JsMap HistVal)
      (tokensBalance : JsMap BalRec)
  | set_use_wallet_service (payload : Bool)
  | lock_wallet_for_result (resolver : Nat)
  | resolve_lock_wallet_promise (payload : String)
  | reset_selected_token_if_needed
  | set_ledger_was_closed (payload : Bool)
  | set_server_info (network : String) (version : String)
  | token_fetch_balance_requested (tokenId : String)
  | token_fetch_balance_success (tokenId : String) (data : BalanceData)
  | token_fetch_balance_failed (tokenId : String)
  | token_fetch_history_requested (tokenId : String)
  | token_fetch_history_success (tokenId : String) (data : List TxHistory)
  | token_fetch_history_failed (tokenId : String)
  | set_enable_atomic_swap (payload : Bool)
  | proposal_list_updated (listenedProposalsMap : JsMap Proposal)
  | proposal_fetch_requested (proposalId : String)
  | proposal_fetch_success (proposalId : String) (data : String)
  | proposal_fetch_failed (proposalId : String) (errorMessage : String)
  | proposal_updated (proposalId : String) (data : String)
  | proposal_token_fetch_requested (tokenUid : String)
  | proposal_token_fetch_success (tokenUid : String) (symbol : String) (name : String)
  | proposal_token_fetch_failed (tokenUid : String) (errorMessage : String)
  | proposal_removed (proposalId : String)
  | proposal_imported (proposalId : String) (password : String)
  | token_invalidate_history (tokenId : String)
  | token_invalidate_balance (tokenId : String)
  | on_start_wallet_lock
  | start_wallet_requested (action : StartAction)
  | start_wallet_success
  | start_wallet_failed
  | wallet_best_block_update (data : Int)
  | set_navigate_to (route : String) (replace : Bool)
  | set_unleash_client
  | set_feature_toggles (payload : JsMap Bool)
  | feature_toggle_initialized
  | update_tx_history (tx : Tx) (tokenId : String) (balance : Int)
  | wallet_change_state (payload : String)
  | set_mining_server (payload : String)
  | set_native_token_data (payload : TokenData)
  /-- Any transition identifier that matches no case of the switch. -/
  | unknown (ident : String)

/-- Embedding of rootReducer. The parameter now stands for the value of
new Date().getTime() during the dispatch. The SET_UNLEASH_CLIENT case calls
onSetUnleashClient, an identifier that is defined nowhere in the module and
is not imported, so dispatching it throws a ReferenceError. The resolver
invocation of resolve_lock_wallet_promise is an effect outside the state, so
the dispatch keeps only the state component. -/
def rootReducer (state : State) (a : RAction) (now : Nat) : Except JsErr State :=
  match a with
  | .history_update allTokens lastSharedIndex lastSharedAddress addressesFound transactionsFound =>
      .ok { state with
        allTokens := allTokens
        lastSharedIndex := lastSharedIndex
        lastSharedAddress := lastSharedAddress
        addressesFound := some addressesFound
        transactionsFound := some transactionsFound }
  | .shared_address lastSharedAddress lastSharedIndex =>
      .ok { state with
        lastSharedAddress := lastSharedAddress
        lastSharedIndex := lastSharedIndex }
  | .is_version_allowed_update allowed =>
      .ok { state with isVersionAllowed := some allowed }
  | .is_online_update isOnline => .ok { state with isOnline := isOnline }
  | .network_update network => .ok { state with network := some network }
  | .reload_data payload => .ok (applyPatch state payload)
  | .clean_data => .ok (onCleanData state)
  | .last_failed_request payload =>
      .ok { state with lastFailedRequest := some payload }
  | .select_token payload => .ok { state with selectedToken := payload }
  | .new_tokens uid tokens => .ok (onNewTokens state uid tokens)
  | .loading_addresses_update payload =>
      .ok { state with loadingAddresses := payload }
  | .update_loaded_data payload => .ok (onUpdateLoadedData state payload)
  | .update_request_error_status_code payload =>
      .ok { state with requestErrorStatusCode := some payload }
  | .update_height height htrUpdatedBalance =>
      .ok (onUpdateHeight state height htrUpdatedBalance)
  | .load_wallet_success tokens registeredTokens currentAddress =>
      .ok (onLoadWalletSuccess state tokens registeredTokens currentAddress)
  | .update_tx tx updatedBalanceMap balances =>
      onUpdateTx state tx updatedBalanceMap balances
  | .update_token_history token newHistory =>
      .ok (onUpdateTokenHistory state token newHistory)
  | .token_metadata_updated data errors =>
      .ok (tokenMetadataUpdated state data errors)
  | .metadata_loaded payload => .ok { state with metadataLoaded := payload }
  | .remove_token_metadata uid => .ok (removeTokenMetadata state uid)
  | .partially_update_history_and_balance tokensHistory tokensBalance =>
      .ok (partiallyUpdateHistoryAndBalance state tokensHistory tokensBalance)
  | .set_use_wallet_service payload => .ok (onSetUseWalletService state payload)
  | .lock_wallet_for_result resolver => .ok (onLockWalletForResult state resolver)
  | .resolve_lock_wallet_promise payload =>
      (onResolveLockWalletPromise state payload).map Prod.fst
  | .reset_selected_token_if_needed => .ok (resetSelectedTokenIfNeeded state)
  | .set_ledger_was_closed payload =>
      .ok { state with ledgerWasClosed := payload }
  | .set_server_info network version => .ok (onSetServerInfo state network version)
  | .token_fetch_balance_requested tokenId =>
      .ok (onTokenFetchBalanceRequested state tokenId)
  | .token_fetch_balance_success tokenId data =>
      .ok (onTokenFetchBalanceSuccess state tokenId data now)
  | .token_fetch_balance_failed tokenId =>
      .ok (onTokenFetchBalanceFailed state tokenId)
  | .token_fetch_history_requested tokenId =>
      .ok (onTokenFetchHistoryRequested state tokenId)
  | .token_fetch_history_success tokenId data =>
      .ok (onTokenFetchHistorySuccess state tokenId data now)
  | .token_fetch_history_failed tokenId =>
      .ok (onTokenFetchHistoryFailed state tokenId)
  | .set_enable_atomic_swap payload => .ok (onSetUseAtomicSwap state payload)
  | .proposal_list_updated listenedProposalsMap =>
      .ok (onProposalListUpdated state listenedProposalsMap)
  | .proposal_fetch_requested proposalId =>
      .ok (onProposalFetchRequested state proposalId)
  | .proposal_fetch_success proposalId data =>
      .ok (onProposalFetchSuccess state proposalId data now)
  | .proposal_fetch_failed proposalId errorMessage =>
      .ok (onProposalFetchFailed state proposalId errorMessage now)
  | .proposal_updated proposalId data =>
      .ok (onProposalUpdate state proposalId data now)
  | .proposal_token_fetch_requested tokenUid =>
      .ok (onProposalTokenFetchRequested state tokenUid)
  | .proposal_token_fetch_success tokenUid symbol name =>
      .ok (onProposalTokenFetchSuccess state tokenUid symbol name)
  | .proposal_token_fetch_failed tokenUid errorMessage =>
      .ok (onProposalTokenFetchFailed state tokenUid errorMessage)
  | .proposal_removed proposalId => .ok (onProposalRemoved state proposalId)
  | .proposal_imported proposalId password =>
      .ok (onProposalImported state proposalId password)
  | .token_invalidate_history tokenId =>
      .ok (onTokenInvalidateHistory state tokenId)
  | .token_invalidate_balance tokenId =>
      .ok (onTokenInvalidateBalance state tokenId)
  | .on_start_wallet_lock => .ok (onStartWalletLock state)
  | .start_wallet_requested action => .ok (onStartWalletRequested state action)
  | .start_wallet_success => .ok (onStartWalletSuccess state)
  | .start_wallet_failed => .ok (onStartWalletFailed state)
  | .wallet_best_block_update data => .ok (onWalletBestBlockUpdate state data)
  | .set_navigate_to route replace => .ok (onSetNavigateTo state route replace)
  | .set_unleash_client => .error .referenceError
  | .set_feature_toggles payload => .ok (onSetFeatureToggles state payload)
  | .feature_toggle_initialized => .ok (onFeatureToggleInitialized state)
  | .update_tx_history tx tokenId balance =>
      onUpdateTxHistory state tx tokenId balance
  | .wallet_change_state payload => .ok (onWalletStateChanged state payload)
  | .set_mining_server payload => .ok (onSetMiningServer state payload)
  | .set_native_token_data payload => .ok (onSetNativeTokenData state payload)
  | .unknown _ => .ok state

/-! Map lemmas used by the theorems below. -/

theorem jsGet_append {α : Type} (a b : JsMap α) (k : String) :
    jsGet (a ++ b) k = match jsGet a k with
      | some v => some v
      | none => jsGet b k := by
  induction a with
  | nil => simp [jsGet]
  | cons kv rest ih =>
      obtain ⟨k0, v0⟩ := kv
      by_cases h : k0 = k <;> simp [jsGet, h, ih]

theorem jsGet_jsSet {α : Type} (m : JsMap α) (k : String) (v : α) :
    jsGet (jsSet m k v) k = some v := by
  induction m with
  | nil => simp [jsSet, jsGet]
  | cons kv rest ih =>
      obtain ⟨k0, v0⟩ := kv
      by_cases h : k0 = k <;> simp [jsSet, jsGet, h, ih]

theorem jsGet_mapMerge_some {α : Type} (m b : JsMap α) (k : String) (w : α)
    (h : jsGet m k = some w) :
    jsGet (m.map (fun kv => (kv.1, (jsGet b kv.1).getD kv.2))) k =
      some ((jsGet b k).getD w) := by
  induction m with
  | nil => simp [jsGet] at h
  | cons kv rest ih =>
      obtain ⟨k0, v0⟩ := kv
      by_cases hk : k0 = k
      · subst hk
        simp [jsGet] at h
        simp [jsGet, h]
      · simp [jsGet, hk] at h
        simp [jsGet, hk, ih h]

theorem jsGet_mapMerge_none {α : Type} (m b : JsMap α) (k : String)
    (h : jsGet m k = none) :
    jsGet (m.map (fun kv => (kv.1, (jsGet b kv.1).getD kv.2))) k = none := by
  induction m with
  | nil => simp [jsGet]
  | cons kv rest ih =>
      obtain ⟨k0, v0⟩ := kv
      by_cases hk : k0 = k
      · subst hk; simp [jsGet] at h
      · simp [jsGet, hk] at h
        simp [jsGet, hk, ih h]

theorem jsGet_jsMerge_single {α : Type} (m : JsMap α) (k : String) (v : α) :
    jsGet (jsMerge m [(k, v)]) k = some v := by
  unfold jsMerge
  rw [jsGet_append]
  cases h : jsGet m k with
  | some w =>
      rw [jsGet_mapMerge_some m [(k, v)] k w h]
      simp [jsGet]
  | none =>
      rw [jsGet_mapMerge_none m [(k, v)] k h]
      simp [jsGet, h, List.filter]

theorem findTxIndex_eq_none_of_no_match (txId : String) (l : List TxHistory)
    (h : ∀ e ∈ l, e.tx_id ≠ txId) : findTxIndex txId l = none := by
  induction l with
  | nil => rfl
  | cons e rest ih =>
      have he : e.tx_id ≠ txId := h e (by simp)
      simp [findTxIndex, he]
      exact ih (fun x hx => h x (by simp [hx]))

/-! Claim theorems. -/

/-- C2: for every state and every transition whose identifier is not one of
the recognized transition types, the StateStore reducer returns a state equal
field-for-field to the input state - unknown transitions are no-ops and never
prevent the store from producing a next state. -/
theorem rootReducer_total_unknown_noop (s : State) (ident : String) (now : Nat) :
    rootReducer s (RAction.unknown ident) now = .ok s := rfl

/-- C4: applying the clean_data transition to any state yields the default
initial state except that exactly four fields are retained from the current
state - isVersionAllowed, loadingAddresses, ledgerWasClosed and
featureTogglesInitialized - and every other field returns to its initial
value. -/
theorem clean_data_allowlist_frame (s : State) :
    (onCleanData s).isVersionAllowed = s.isVersionAllowed
    ∧ (onCleanData s).loadingAddresses = s.loadingAddresses
    ∧ (onCleanData s).ledgerWasClosed = s.ledgerWasClosed
    ∧ (onCleanData s).featureTogglesInitialized = s.featureTogglesInitialized
    ∧ (onCleanData s).tokensHistory = initialState.tokensHistory
    ∧ (onCleanData s).tokensBalance = initialState.tokensBalance
    ∧ (onCleanData s).lastSharedAddress = initialState.lastSharedAddress
    ∧ (onCleanData s).lastSharedIndex = initialState.lastSharedIndex
    ∧ (onCleanData s).isOnline = initialState.isOnline
    ∧ (onCleanData s).network = initialState.network
    ∧ (onCleanData s).lastFailedRequest = initialState.lastFailedRequest
    ∧ (onCleanData s).requestErrorStatusCode = initialState.requestErrorStatusCode
    ∧ (onCleanData s).tokens = initialState.tokens
    ∧ (onCleanData s).selectedToken = initialState.selectedToken
    ∧ (onCleanData s).allTokens = initialState.allTokens
    ∧ (onCleanData s).loadedData = initialState.loadedData
    ∧ (onCleanData s).height = initialState.height
    ∧ (onCleanData s).walletState = initialState.walletState
    ∧ (onCleanData s).tokenMetadata = initialState.tokenMetadata
    ∧ (onCleanData s).tokenMetadataErrors = initialState.tokenMetadataErrors
    ∧ (onCleanData s).metadataLoaded = initialState.metadataLoaded
    ∧ (onCleanData s).useWalletService = initialState.useWalletService
    ∧ (onCleanData s).lockWalletPromise = initialState.lockWalletPromise
    ∧ (onCleanData s).serverInfo = initialState.serverInfo
    ∧ (onCleanData s).startWalletAction = initialState.startWalletAction
    ∧ (onCleanData s).navigateTo = initialState.navigateTo
    ∧ (onCleanData s).useAtomicSwap = initialState.useAtomicSwap
    ∧ (onCleanData s).proposals = initialState.proposals
    ∧ (onCleanData s).tokensCache = initialState.tokensCache
    ∧ (onCleanData s).featureToggles = initialState.featureToggles
    ∧ (onCleanData s).miningServer = initialState.miningServer
    ∧ (onCleanData s).nativeTokenData = initialState.nativeTokenData
    ∧ (onCleanData s).addressesFound = initialState.addressesFound
    ∧ (onCleanData s).transactionsFound = initialState.transactionsFound
    ∧ (onCleanData s).walletStartState = initialState.walletStartState :=
  ⟨rfl, rfl, rfl, rfl, rfl, rfl, rfl, rfl, rfl, rfl, rfl, rfl, rfl, rfl, rfl,
   rfl, rfl, rfl, rfl, rfl, rfl, rfl, rfl, rfl, rfl, rfl, rfl, rfl, rfl, rfl,
   rfl, rfl, rfl, rfl, rfl⟩

/-- C6: update_height is a conditional no-op - when the incoming height
equals the current height the result is structurally equal to the input,
hence applying the same update_height twice equals applying it once; when
the height differs, the single transition updates both the height and the
native token entry of tokensBalance together. -/
theorem update_height_conditional_noop (s : State) (h : Int) (b : BalRec) :
    (h = s.height → onUpdateHeight s h b = s)
    ∧ onUpdateHeight (onUpdateHeight s h b) h b = onUpdateHeight s h b
    ∧ (h ≠ s.height →
        (onUpdateHeight s h b).height = h
        ∧ jsGet (onUpdateHeight s h b).tokensBalance NATIVE_TOKEN_UID = some b) := by
  refine ⟨fun heq => by simp [onUpdateHeight, heq], ?_, fun hne => ?_⟩
  · by_cases heq : h = s.height
    · simp [onUpdateHeight, heq]
    · simp [onUpdateHeight, heq]
  · exact ⟨by simp [onUpdateHeight, hne],
      by simp [onUpdateHeight, hne, jsGet_jsMerge_single]⟩

/-- C6 witness: concrete checks of both branches of the conditional. -/
theorem update_height_conditional_noop_checks :
    onUpdateHeight initialState 0 {} = initialState
    ∧ (onUpdateHeight initialState 5 { status := some .ready }).height = 5
    ∧ jsGet (onUpdateHeight initialState 5 { status := some .ready }).tokensBalance
        NATIVE_TOKEN_UID = some { status := some .ready } :=
  ⟨(update_height_conditional_noop initialState 0 {}).1 (by decide),
   ((update_height_conditional_noop initialState 5 { status := some .ready }).2.2
      (by decide)).1,
   ((update_height_conditional_noop initialState 5 { status := some .ready }).2.2
      (by decide)).2⟩

/-- C8: when the reselect rule runs in a state whose selected token has a
balance entry reading {available: 0, locked: 0}, the result selects the
native token uid; when the available plus locked reading is nonzero, the
state is returned unchanged. -/
theorem reset_selected_token_spec (s : State) (r : BalRec) :
    (jsGet s.tokensBalance s.selectedToken = some r →
      r.available = some 0 → r.locked = some 0 →
      (resetSelectedTokenIfNeeded s).selectedToken = NATIVE_TOKEN_UID)
    ∧ (∀ a l : Int, jsGet s.tokensBalance s.selectedToken = some r →
        r.available = some a → r.locked = some l → a + l ≠ 0 →
        resetSelectedTokenIfNeeded s = s) := by
  constructor
  · intro h ha hl
    simp [resetSelectedTokenIfNeeded, h, ha, hl, jsAddNum, jsStrictEqZero]
  · intro a l h ha hl hne
    simp [resetSelectedTokenIfNeeded, h, ha, hl, jsAddNum, jsStrictEqZero, hne]

/-- C8 witness: a zero flat balance forces the native token; a nonzero one
leaves the state alone. -/
theorem reset_selected_token_spec_checks :
    (resetSelectedTokenIfNeeded
      { initialState with
        selectedToken := "tk"
        tokensBalance := [("tk", { available := some 0, locked := some 0 })] }).selectedToken
        = NATIVE_TOKEN_UID
    ∧ resetSelectedTokenIfNeeded
        { initialState with
          selectedToken := "tk"
          tokensBalance := [("tk", { available := some 3, locked := some 0 })] }
        = { initialState with
            selectedToken := "tk"
            tokensBalance := [("tk", { available := some 3, locked := some 0 })] } :=
  ⟨(reset_selected_token_spec
      { initialState with
        selectedToken := "tk"
        tokensBalance := [("tk", { available := some 0, locked := some 0 })] }
      { available := some 0, locked := some 0 }).1 (by decide) rfl rfl,
   (reset_selected_token_spec
      { initialState with
        selectedToken := "tk"
        tokensBalance := [("tk", { available := some 3, locked := some 0 })] }
      { available := some 3, locked := some 0 }).2 3 0 (by decide) rfl rfl
      (by decide)⟩

/-- C9: with a resolver armed, resolve_lock_wallet_promise invokes that
resolver with the action payload and clears the slot to null; with no
resolver armed it raises (a TypeError from calling null). -/
theorem resolve_lock_wallet_promise_spec (s : State) (payload : String) :
    (∀ r : Nat, s.lockWalletPromise = some r →
      onResolveLockWalletPromise s payload =
        .ok ({ s with lockWalletPromise := none },
             { resolver := r, arg := payload }))
    ∧ (s.lockWalletPromise = none →
        onResolveLockWalletPromise s payload = .error .typeError) := by
  constructor
  · intro r h
    simp [onResolveLockWalletPromise, h]
  · intro h
    simp [onResolveLockWalletPromise, h]

/-- C9 witness: concrete armed and unarmed dispatches. -/
theorem resolve_lock_wallet_promise_spec_checks :
    onResolveLockWalletPromise
        { initialState with lockWalletPromise := some 7 } "pin-ok" =
      .ok ({ initialState with lockWalletPromise := none },
           { resolver := 7, arg := "pin-ok" })
    ∧ onResolveLockWalletPromise initialState "pin-ok" = .error .typeError :=
  ⟨(resolve_lock_wallet_promise_spec
      { initialState with lockWalletPromise := some 7 } "pin-ok").1 7 rfl,
   (resolve_lock_wallet_promise_spec initialState "pin-ok").2 rfl⟩

/-- C10: UPDATE_TX_HISTORY returns the input state unchanged when the token
has no tokensHistory entry; when an entry with a data array exists but no
element matches the incoming tx_id, the entry (its data element-for-element)
is left unchanged - the update is silently dropped, not appended. -/
theorem update_tx_history_miss_spec (s : State) (tx : Tx) (tokenId : String)
    (balance : Int) :
    (jsGet s.tokensHistory tokenId = none →
      onUpdateTxHistory s tx tokenId balance = .ok s)
    ∧ (∀ (r : HistRec) (l : List TxHistory),
        jsGet s.tokensHistory tokenId = some (.obj r) →
        r.data = some l →
        (∀ e ∈ l, e.tx_id ≠ tx.tx_id) →
        onUpdateTxHistory s tx tokenId balance =
          .ok { s with
            tokensHistory := jsSet s.tokensHistory tokenId (.obj r) }) := by
  constructor
  · intro h
    simp [onUpdateTxHistory, h]
  · intro r l h hd hnone
    have hfind : findTxIndex tx.tx_id l = none :=
      findTxIndex_eq_none_of_no_match tx.tx_id l hnone
    obtain ⟨st, ost, ua, dt⟩ := r
    simp only at hd
    subst hd
    simp [onUpdateTxHistory, h, hfind]

/-- C10 witness: concrete absent-entry and unmatched-entry dispatches. -/
theorem update_tx_history_miss_spec_checks :
    onUpdateTxHistory initialState
        { tx_id := "9", timestamp := 1, is_voided := true, version := 1,
          isAllAuthority := false } "tk" 4 = .ok initialState
    ∧ onUpdateTxHistory
        { initialState with
          tokensHistory :=
            [("tk", .obj { status := some .ready,
                           data := some [{ tx_id := "1", timestamp := 0,
                                           tokenUid := "tk", balance := 2,
                                           is_voided := false, version := 1,
                                           isAllAuthority := false }] })] }
        { tx_id := "9", timestamp := 1, is_voided := true, version := 1,
          isAllAuthority := false } "tk" 4 =
      .ok { initialState with
        tokensHistory :=
          [("tk", .obj { status := some .ready,
                         data := some [{ tx_id := "1", timestamp := 0,
                                         tokenUid := "tk", balance := 2,
                                         is_voided := false, version := 1,
                                         isAllAuthority := false }] })] } :=
  ⟨(update_tx_history_miss_spec initialState
      { tx_id := "9", timestamp := 1, is_voided := true, version := 1,
        isAllAuthority := false } "tk" 4).1 rfl,
   (update_tx_history_miss_spec
      { initialState with
        tokensHistory :=
          [("tk", .obj { status := some .ready,
                         data := some [{ tx_id := "1", timestamp := 0,
                                         tokenUid := "tk", balance := 2,
                                         is_voided := false, version := 1,
                                         isAllAuthority := false }] })] }
      { tx_id := "9", timestamp := 1, is_voided := true, version := 1,
        isAllAuthority := false } "tk" 4).2
      { status := some .ready,
        data := some [{ tx_id := "1", timestamp := 0, tokenUid := "tk",
                        balance := 2, is_voided := false, version := 1,
                        isAllAuthority := false }] }
      [{ tx_id := "1", timestamp := 0, tokenUid := "tk", balance := 2,
         is_voided := false, version := 1, isAllAuthority := false }]
      rfl rfl (by decide)⟩

/-- Concrete state with one proposal currently in the LOADING status, used
to evaluate the proposal fetch success handler. -/
def loadingProposalState : State :=
  { initialState with
    proposals := [("p1", { id := some "p1", status := some .loading })] }

/-- C3 counterexample: onProposalFetchSuccess spreads the old record and
never overwrites oldStatus, so from a proposal whose status is LOADING the
success transition yields a record whose oldStatus is undefined rather than
LOADING - the resulting oldStatus differs from the status held immediately
before the transition. -/
theorem proposal_fetch_success_oldStatus_cex :
    Option.bind (jsGet (onProposalFetchSuccess loadingProposalState "p1" "d" 5).proposals "p1")
        Proposal.oldStatus
      ≠ Option.bind (jsGet loadingProposalState.proposals "p1") Proposal.status := by
  decide

/-- C3 amended: the oldStatus bookkeeping holds for the token balance and
token history requested/success/failed handlers and for the proposal fetch
requested handler - after each, the entry has the transition status and its
oldStatus equals the status the entity held immediately before (undefined
when the entity was absent). It does not extend to the invalidate handlers,
the proposal and proposal-token success/failed handlers, or the
proposal-token requested handler from an absent entry. -/
theorem status_transitions_oldStatus_bookkeeping (s : State)
    (tokenId pid : String) (bd : BalanceData) (hl : List TxHistory) (now : Nat) :
    (balRecOf (jsGet (onTokenFetchBalanceRequested s tokenId).tokensBalance tokenId)).oldStatus
        = balStatus (jsGet s.tokensBalance tokenId)
    ∧ balStatus (jsGet (onTokenFetchBalanceRequested s tokenId).tokensBalance tokenId)
        = some .loading
    ∧ (balRecOf (jsGet (onTokenFetchBalanceSuccess s tokenId bd now).tokensBalance tokenId)).oldStatus
        = balStatus (jsGet s.tokensBalance tokenId)
    ∧ balStatus (jsGet (onTokenFetchBalanceSuccess s tokenId bd now).tokensBalance tokenId)
        = some .ready
    ∧ (balRecOf (jsGet (onTokenFetchBalanceFailed s tokenId).tokensBalance tokenId)).oldStatus
        = balStatus (jsGet s.tokensBalance tokenId)
    ∧ balStatus (jsGet (onTokenFetchBalanceFailed s tokenId).tokensBalance tokenId)
        = some .failed
    ∧ (histRecOf (jsGet (onTokenFetchHistoryRequested s tokenId).tokensHistory tokenId)).oldStatus
        = histStatus (jsGet s.tokensHistory tokenId)
    ∧ histStatus (jsGet (onTokenFetchHistoryRequested s tokenId).tokensHistory tokenId)
        = some .loading
    ∧ (histRecOf (jsGet (onTokenFetchHistorySuccess s tokenId hl now).tokensHistory tokenId)).oldStatus
        = histStatus (jsGet s.tokensHistory tokenId)
    ∧ histStatus (jsGet (onTokenFetchHistorySuccess s tokenId hl now).tokensHistory tokenId)
        = some .ready
    ∧ (histRecOf (jsGet (onTokenFetchHistoryFailed s tokenId).tokensHistory tokenId)).oldStatus
        = histStatus (jsGet s.tokensHistory tokenId)
    ∧ histStatus (jsGet (onTokenFetchHistoryFailed s tokenId).tokensHistory tokenId)
        = some .failed
    ∧ ((jsGet (onProposalFetchRequested s pid).proposals pid).getD (defaultProposal pid)).oldStatus
        = propStatus (jsGet s.proposals pid) pid
    ∧ propStatus (jsGet (onProposalFetchRequested s pid).proposals pid) pid
        = some .loading := by
  refine ⟨?_, ?_, ?_, ?_, ?_, ?_, ?_, ?_, ?_, ?_, ?_, ?_, ?_, ?_⟩ <;>
    simp [onTokenFetchBalanceRequested, onTokenFetchBalanceSuccess,
      onTokenFetchBalanceFailed, onTokenFetchHistoryRequested,
      onTokenFetchHistorySuccess, onTokenFetchHistoryFailed,
      onProposalFetchRequested, jsGet_jsSet, balRecOf, balStatus,
      histRecOf, histStatus, propStatus]

/-- History entry with tx_id 1 used in the update_tx evaluations. -/
def histEntryA : TxHistory :=
  { tx_id := "1", timestamp := 10, tokenUid := "tk", balance := 3,
    is_voided := false, version := 1, isAllAuthority := false }

/-- History entry with tx_id 2 used in the update_tx evaluations. -/
def histEntryB : TxHistory :=
  { tx_id := "2", timestamp := 11, tokenUid := "tk", balance := 4,
    is_voided := false, version := 1, isAllAuthority := false }

/-- Websocket update re-observing tx 2 as voided. -/
def txUpdate2 : Tx :=
  { tx_id := "2", timestamp := 11, is_voided := true, version := 1,
    isAllAuthority := false }

/-- Websocket update for tx 3, absent from the histories below. -/
def txUpdate3 : Tx :=
  { tx_id := "3", timestamp := 20, is_voided := true, version := 1,
    isAllAuthority := false }

/-- State whose token tk history is the array [A(txId=1)]. -/
def missHistoryState : State :=
  { initialState with tokensHistory := [("tk", .arr [histEntryA])] }

/-- State whose token tk history is the array [A(txId=1), B(txId=2)]. -/
def replaceHistoryState : State :=
  { initialState with tokensHistory := [("tk", .arr [histEntryA, histEntryB])] }

/-- C1 evaluation: re-observing an existing tx (txId=2) replaces its entry in
place, but an update for an absent txId=3 leaves the history sequence
[A(txId=1)] unchanged at length 1 - findIndex returns -1 and the write to
index -1 creates a non-index property instead of appending, so the claimed
result [A, C(txId=3)] of length 2 is not produced. -/
theorem update_tx_miss_drops_instead_of_append :
    (rootReducer replaceHistoryState
        (RAction.update_tx txUpdate2 [] [("tk", 7)]) 0).map
        (fun s => jsGet s.tokensHistory "tk")
      = .ok (some (.arr [histEntryA, getTxHistoryFromWSTx txUpdate2 "tk" 7]))
    ∧ (rootReducer missHistoryState
        (RAction.update_tx txUpdate3 [] [("tk", 5)]) 0).map
        (fun s => jsGet s.tokensHistory "tk")
      = .ok (some (.arr [histEntryA])) :=
  ⟨rfl, rfl⟩

/-- State whose token tk history entry is a TokenHistory record of the shape
documented by the typedef at the top of the source file. -/
def recordHistoryState : State :=
  { initialState with
    tokensHistory :=
      [("tk", .obj { status := some .ready, oldStatus := some .loading,
                     updatedAt := some 1, data := some [] })] }

/-- C5 evaluation: dispatching update_tx against a state whose tokensHistory
entry is a TokenHistory record (the documented shape) raises a TypeError -
the handler calls findIndex on the record, a method plain objects lack - so
the reducer raises outside the PinGate misuse case. -/
theorem update_tx_raises_on_documented_history_shape :
    rootReducer recordHistoryState
        (RAction.update_tx txUpdate3 [] [("tk", 0)]) 0
      = .error .typeError := rfl

/-- State holding metadata and a zero-balance entry for token u. -/
def zeroBalanceMetaState : State :=
  { initialState with
    tokenMetadata := [("u", "meta")]
    tokensBalance :=
      [("u", { status := some .ready,
               data := some { available := 0, locked := 0 } })] }

/-- C7 evaluation: remove_token_metadata for a token whose stored balance
data sums to zero removes the metadata key but leaves tokensBalance exactly
as it was - the pruned copy the source computes is never returned, and its
zero test reads a nonexistent unlocked field (NaN), so the balance key
survives. -/
theorem remove_token_metadata_keeps_balance_key :
    jsGet (removeTokenMetadata zeroBalanceMetaState "u").tokenMetadata "u" = none
    ∧ (removeTokenMetadata zeroBalanceMetaState "u").tokensBalance
        = zeroBalanceMetaState.tokensBalance
    ∧ jsGet (removeTokenMetadata zeroBalanceMetaState "u").tokensBalance "u"
        = some { status := some .ready,
                 data := some { available := 0, locked := 0 } } := by
  decide
